import Mathlib

/-
Shallow embedding of the management-controller client in
plugins/module_utils/dell_idrac.py (class IDRAC and its helpers).

Modelling conventions:
- JSON documents are values of the inductive type JValue; Python dicts are
  association lists of string keys (lookup returns the first matching key,
  assignment replaces the first matching key in place, matching dict
  semantics when keys are unique, which dicts guarantee).
- Python exceptions are the error side of Except PyErr.  Distinct ValueError
  call sites in the source are given distinct constructors so that theorems
  can name the check that fired; each constructor is documented with the
  source line it models.
- The requests session is a state/oracle pair: SessState carries the
  resource cache, the number of network requests issued so far, the ordered
  trace of issued requests and a discrete clock; Env answers the n-th
  network request.  Network requests take zero time; time.sleep(5) advances
  the clock by 5.  urljoin(self.baseurl, uri) only prepends the constant
  base url, so requests are keyed by the unqualified uri.
- while-True loops take a fuel argument; running out of fuel yields the
  pseudo-error fuelExhausted, which models non-termination of an unbounded
  loop and corresponds to no Python exception.
-/

/-- A JSON value, as produced by response.json() in the source. -/
inductive JValue where
  | null
  | bool (b : Bool)
  | num (n : Int)
  | str (s : String)
  | arr (xs : List JValue)
  | obj (fields : List (String × JValue))

mutual

/-- Python structural equality (==) on JSON values.  The repository only
compares strings with this (power states, names, ids, allowed action
parameter values); for objects Python compares dicts as unordered mappings,
which coincides with this field-by-field comparison when the field order of
equal dicts agrees, as it does everywhere in this development. -/
def pyEq : JValue → JValue → Bool
  | .null, .null => true
  | .bool a, .bool b => a == b
  | .num a, .num b => a == b
  | .str a, .str b => a == b
  | .arr xs, .arr ys => pyEqList xs ys
  | .obj xs, .obj ys => pyEqFields xs ys
  | _, _ => false

/-- Elementwise pyEq on JSON arrays. -/
def pyEqList : List JValue → List JValue → Bool
  | [], [] => true
  | x :: xs, y :: ys => pyEq x y && pyEqList xs ys
  | _, _ => false

/-- Fieldwise pyEq on JSON objects. -/
def pyEqFields : List (String × JValue) → List (String × JValue) → Bool
  | [], [] => true
  | (k1, v1) :: xs, (k2, v2) :: ys => k1 == k2 && pyEq v1 v2 && pyEqFields xs ys
  | _, _ => false

end

/-- First-match lookup in a JSON object field list (Python dict indexing). -/
def lookupField : List (String × JValue) → String → Option JValue
  | [], _ => none
  | (k, v) :: rest, key => if k == key then some v else lookupField rest key

/-- Python dict assignment d[k] = v: replace the first entry with key k,
or append a new entry at the end (dict insertion order). -/
def setField : List (String × JValue) → String → JValue → List (String × JValue)
  | [], k, v => [(k, v)]
  | (k1, v1) :: rest, k, v =>
    if k1 == k then (k, v) :: rest else (k1, v1) :: setField rest k v

/-- Occurrence of needle as a contiguous sublist of hay, the semantics of
the Python substring operator (needle in hay) on strings. -/
def subOcc (needle : List Char) : List Char → Bool
  | [] => needle.isEmpty
  | c :: rest => needle.isPrefixOf (c :: rest) || subOcc needle rest

/-- Python substring test: needle in hay. -/
def strContainsSub (needle hay : String) : Bool :=
  subOcc needle.toList hay.toList

/-- Python str.lower, modelled as characterwise ASCII lowercasing; the two
agree on the alphabet relevant to the "failed" substring test. -/
def pyLower (s : String) : String :=
  ⟨s.toList.map Char.toLower⟩

/-- Python exceptions raised by the code paths modelled here.  fuelExhausted
is not a Python exception: it marks that the fuel of a while-True loop ran
out, i.e. the loop would still be running. -/
inductive PyErr where
  /-- ValueError("this class cannot fetch fully qualifed urls") in request. -/
  | valueErrorFullyQualified
  /-- ValueError("unexpected content type ...") in request. -/
  | valueErrorContentType
  /-- ValueError(pval) in the parameter loop of execute-action. -/
  | valueErrorParam (v : JValue)
  /-- KeyError(k) from a dict lookup d[k]. -/
  | keyError (k : String)
  /-- TypeError, e.g. indexing or membership on a non-container. -/
  | typeError
  /-- AttributeError, e.g. calling a string method on a non-string. -/
  | attributeError
  /-- requests JSONDecodeError from response.json() on an unparsable body. -/
  | jsonDecodeError
  /-- OperationFailed carrying the vendor (MessageId, Message) pairs. -/
  | operationFailed (errors : List (JValue × JValue))
  /-- TimeoutError from the polling loops. -/
  | timeoutError
  /-- Fuel ran out: the unbounded loop would still be polling. -/
  | fuelExhausted

/-- Python indexing data[key] with a string key. -/
def pyGetItem (v : JValue) (key : String) : Except PyErr JValue :=
  match v with
  | .obj fields =>
    match lookupField fields key with
    | some x => .ok x
    | none => .error (.keyError key)
  | _ => .error .typeError

/-- Python membership x in container.  For dicts this checks the keys, for
lists it compares elements with ==, for strings it is the substring test;
unhashable keys and non-container operands raise TypeError as in Python. -/
def pyContainsVal (container : JValue) (x : JValue) : Except PyErr Bool :=
  match container with
  | .arr xs => .ok (xs.any (fun e => pyEq x e))
  | .str hay =>
    match x with
    | .str needle => .ok (strContainsSub needle hay)
    | _ => .error .typeError
  | .obj fields =>
    match x with
    | .str k => .ok (fields.any (fun p => p.1 == k))
    | .num _ => .ok false
    | .bool _ => .ok false
    | .null => .ok false
    | _ => .error .typeError
  | _ => .error .typeError

/-- Python d.get(key, default): dicts return the entry or the default;
values of other types have no .get attribute. -/
def dictGet (v : JValue) (key : String) (dflt : JValue) : Except PyErr JValue :=
  match v with
  | .obj fields =>
    match lookupField fields key with
    | some x => .ok x
    | none => .ok dflt
  | _ => .error .attributeError

/-- The well-known resource paths of the RESOURCES namespace. -/
def RESOURCES.system : String := "/redfish/v1/Systems/System.Embedded.1"

/-- Manager singleton path. -/
def RESOURCES.manager : String := "/redfish/v1/Managers/iDRAC.Embedded.1"

/-- Storage collection path. -/
def RESOURCES.storage : String := "/redfish/v1/Systems/System.Embedded.1/Storage"

/-- Jobs collection path. -/
def RESOURCES.jobs : String := "/redfish/v1/Managers/iDRAC.Embedded.1/Jobs"

/-- The JOB_STATE enumeration. -/
inductive JOB_STATE where
  | unknown
  | scheduled
  | running
  | finished
  | failed
deriving DecidableEq

/-- The body of an HTTP response: absent (falsy response.text), present but
not parsable as JSON, or parsed to a JSON value. -/
inductive Body where
  | empty
  | invalidJson
  | json (v : JValue)

/-- An HTTP response as observed through the requests library. -/
structure Response where
  status : Nat
  contentType : String
  body : Body
  location : Option String

/-- The network oracle: answers the n-th request of the session, given the
request method and the unqualified uri. -/
structure Env where
  respond : Nat → String → String → Response

/-- One issued network request, as recorded in the session trace. -/
structure ReqEv where
  method : String
  uri : String
  payload : Option (List (String × JValue))

/-- The mutable state of one IDRAC session: the resource cache, the number
of network requests issued so far, the ordered request trace and the
discrete clock advanced by time.sleep. -/
structure SessState where
  cache : List (String × JValue)
  reqCount : Nat
  trace : List ReqEv
  clock : Nat

/-- res.headers["Content-type"].split(";")[0] in request: the characters
before the first semicolon, or the whole string when there is none. -/
def ctHead (s : String) : String :=
  ⟨s.toList.takeWhile (fun c => c != ';')⟩

/-- res.headers.get("Location", "") in request. -/
def locString : Option String → String
  | none => ""
  | some l => l

/-- Entry extraction of OperationFailed.__init__: walk the
"@Message.ExtendedInfo" list appending (entry["MessageId"], entry["Message"])
pairs; a malformed entry raises just as the Python loop body would. -/
def extInfoPairs : List JValue → Except PyErr (List (JValue × JValue))
  | [] => .ok []
  | e :: rest =>
    match pyGetItem e "MessageId" with
    | .error err => .error err
    | .ok mid =>
      match pyGetItem e "Message" with
      | .error err => .error err
      | .ok msg =>
        match extInfoPairs rest with
        | .error err => .error err
        | .ok ps => .ok ((mid, msg) :: ps)

/-- OperationFailed.__init__ applied to the failing response: no body gives
data = {} hence no errors; a body that does not parse makes
exc.response.json() itself raise; a parsed body is searched for the vendor
error structure.  Iterating a non-list "@Message.ExtendedInfo" value behaves
as the Python for statement would (empty strings and dicts iterate to
nothing, anything else ends in a TypeError by the first entry lookup). -/
def operationFailedErrors : Body → Except PyErr (List (JValue × JValue))
  | .empty => .ok []
  | .invalidJson => .error .jsonDecodeError
  | .json data =>
    match pyContainsVal data (.str "error") with
    | .error e => .error e
    | .ok false => .ok []
    | .ok true =>
      match pyGetItem data "error" with
      | .error e => .error e
      | .ok errObj =>
        match dictGet errObj "@Message.ExtendedInfo" (.arr []) with
        | .error e => .error e
        | .ok (.arr entries) => extInfoPairs entries
        | .ok (.str cs) => if cs.isEmpty then .ok [] else .error .typeError
        | .ok (.obj fs) => if fs.isEmpty then .ok [] else .error .typeError
        | .ok _ => .error .typeError

/-- data.update with the "_location" key taken from the Location header;
non-dict JSON bodies have no .update attribute. -/
def updateLocation (v : JValue) (loc : Option String) : Except PyErr JValue :=
  match v with
  | .obj fields => .ok (.obj (setField fields "_location" (.str (locString loc))))
  | _ => .error .attributeError

/-- IDRAC.request: reject fully qualified urls, issue the request, translate
a non-2xx status into OperationFailed (whose constructor may itself raise on
an unparsable body), reject non-JSON successes, decode the body (an empty
body decodes to an empty dict) and augment it with the Location header. -/
def IDRAC.request (env : Env) (method : String) (uri : JValue)
    (payload : Option (List (String × JValue))) (s : SessState) :
    Except PyErr JValue × SessState :=
  match pyContainsVal uri (.str "://") with
  | .error e => (.error e, s)
  | .ok true => (.error .valueErrorFullyQualified, s)
  | .ok false =>
    match uri with
    | .str u =>
      let res := env.respond s.reqCount method u
      let s1 : SessState :=
        { s with reqCount := s.reqCount + 1,
                 trace := s.trace ++ [⟨method, u, payload⟩] }
      if 400 ≤ res.status then
        match operationFailedErrors res.body with
        | .ok errs => (.error (.operationFailed errs), s1)
        | .error e => (.error e, s1)
      else if ctHead res.contentType != "application/json" then
        (.error .valueErrorContentType, s1)
      else
        match res.body with
        | .empty =>
          match updateLocation (.obj []) res.location with
          | .ok v => (.ok v, s1)
          | .error e => (.error e, s1)
        | .invalidJson => (.error .jsonDecodeError, s1)
        | .json v =>
          match updateLocation v res.location with
          | .ok v1 => (.ok v1, s1)
          | .error e => (.error e, s1)
    | _ =>
      -- uri.startswith("/redfish") needs the startswith attribute
      (.error .attributeError, s)

/-- IDRAC.get: always fetch, then store the result in the cache under the
uri.  A non-string uri fails inside request before the network is reached
(and would be an unhashable cache key). -/
def IDRAC.get (env : Env) (uri : JValue) (s : SessState) :
    Except PyErr JValue × SessState :=
  match IDRAC.request env "GET" uri none s with
  | (.error e, s1) => (.error e, s1)
  | (.ok res, s1) =>
    match uri with
    | .str u => (.ok res, { s1 with cache := setField s1.cache u res })
    | _ => (.error .typeError, s1)

/-- IDRAC.get_cached: return the cached value if one exists, otherwise
fetch and store.  A non-string uri is an unhashable dict key. -/
def IDRAC.get_cached (env : Env) (uri : JValue) (s : SessState) :
    Except PyErr JValue × SessState :=
  match uri with
  | .str u =>
    match lookupField s.cache u with
    | some v => (.ok v, s)
    | none => IDRAC.get env uri s
  | _ => (.error .typeError, s)

/-- requests.Session.post as used by execute-action: a POST with a JSON
payload, running through the overridden request method. -/
def IDRAC.post (env : Env) (uri : JValue) (payload : List (String × JValue))
    (s : SessState) : Except PyErr JValue × SessState :=
  IDRAC.request env "POST" uri (some payload) s

/-- The parameter loop of IDRAC._execute_action: for each supplied
parameter look up its "<name>@Redfish.AllowableValues" list on the action
descriptor (KeyError when the server does not advertise the parameter) and
raise ValueError(pval) when the supplied value is not in the list. -/
def validate_params (act : JValue) : List (String × JValue) → Except PyErr Unit
  | [] => .ok ()
  | (pname, pval) :: rest =>
    match pyGetItem act (pname ++ "@Redfish.AllowableValues") with
    | .error e => .error e
    | .ok allowable =>
      match pyContainsVal allowable pval with
      | .error e => .error e
      | .ok true => validate_params act rest
      | .ok false => .error (.valueErrorParam pval)

/-- IDRAC._execute_action: resolve the resource through the cache, look up
the named action under "Actions" (KeyError when absent), validate the
parameters client side, then POST to the target of the descriptor. -/
def IDRAC._execute_action (env : Env) (uri : String) (action : String)
    (params : List (String × JValue)) (s : SessState) :
    Except PyErr JValue × SessState :=
  match IDRAC.get_cached env (.str uri) s with
  | (.error e, s1) => (.error e, s1)
  | (.ok obj, s1) =>
    match pyGetItem obj "Actions" with
    | .error e => (.error e, s1)
    | .ok actionsObj =>
      match pyGetItem actionsObj action with
      | .error e => (.error e, s1)
      | .ok act =>
        match validate_params act params with
        | .error e => (.error e, s1)
        | .ok () =>
          match pyGetItem act "target" with
          | .error e => (.error e, s1)
          | .ok target => IDRAC.post env target params s1

/-- The member loop of IDRAC._extract_members: for each member take its
"@odata.id"; with detail the member resource is fetched (through the cache
when asked to), otherwise the bare uri value is collected. -/
def extractLoop (env : Env) (detail cache : Bool) :
    List JValue → SessState → Except PyErr (List JValue) × SessState
  | [], s => (.ok [], s)
  | member :: rest, s =>
    match pyGetItem member "@odata.id" with
    | .error e => (.error e, s)
    | .ok uri =>
      if detail then
        match (if cache then IDRAC.get_cached env uri s else IDRAC.get env uri s) with
        | (.error e, s1) => (.error e, s1)
        | (.ok v, s1) =>
          match extractLoop env detail cache rest s1 with
          | (.error e, s2) => (.error e, s2)
          | (.ok vs, s2) => (.ok (v :: vs), s2)
      else
        match extractLoop env detail cache rest s with
        | (.error e, s2) => (.error e, s2)
        | (.ok vs, s2) => (.ok (uri :: vs), s2)

/-- IDRAC._extract_members with the default member attribute "Members",
the only one the repository uses.  Iterating a non-list members value is a
TypeError. -/
def IDRAC._extract_members (env : Env) (data : JValue) (detail cache : Bool)
    (s : SessState) : Except PyErr (List JValue) × SessState :=
  match pyGetItem data "Members" with
  | .error e => (.error e, s)
  | .ok (.arr ms) => extractLoop env detail cache ms s
  | .ok _ => (.error .typeError, s)

/-- IDRAC.list_storage_controllers. -/
def IDRAC.list_storage_controllers (env : Env) (detail : Bool) (s : SessState) :
    Except PyErr (List JValue) × SessState :=
  match IDRAC.get_cached env (.str RESOURCES.storage) s with
  | (.error e, s1) => (.error e, s1)
  | (.ok data, s1) => IDRAC._extract_members env data detail true s1

/-- The string interpolation "{}/Volumes".format(uri) of
IDRAC.list_virtual_disks.  The repository only reaches this with the string
member paths produced by list_storage_controllers; a non-string value,
which Python would render with str(), is not modelled further. -/
def formatVolumes : JValue → String
  | .str u => u ++ "/Volumes"
  | _ => "/Volumes"

/-- IDRAC.list_virtual_disks: the virtual disks of one controller. -/
def IDRAC.list_virtual_disks (env : Env) (uri : JValue) (detail : Bool)
    (s : SessState) : Except PyErr (List JValue) × SessState :=
  match IDRAC.get_cached env (.str (formatVolumes uri)) s with
  | (.error e, s1) => (.error e, s1)
  | (.ok data, s1) => IDRAC._extract_members env data detail true s1

/-- The controller loop of IDRAC.list_all_virtual_disks, which appends the
per-controller listings, each taken with detail=True. -/
def allDisksLoop (env : Env) :
    List JValue → SessState → Except PyErr (List JValue) × SessState
  | [], s => (.ok [], s)
  | controller :: rest, s =>
    match IDRAC.list_virtual_disks env controller true s with
    | (.error e, s1) => (.error e, s1)
    | (.ok vols, s1) =>
      match allDisksLoop env rest s1 with
      | (.error e, s2) => (.error e, s2)
      | (.ok more, s2) => (.ok (vols ++ more), s2)

/-- IDRAC.list_all_virtual_disks.  The detail parameter appears in the
signature but the body never reads it: the controllers are listed without
detail and each per-controller listing is taken with detail=True. -/
def IDRAC.list_all_virtual_disks (env : Env) (detail : Bool) (s : SessState) :
    Except PyErr (List JValue) × SessState :=
  match IDRAC.list_storage_controllers env false s with
  | (.error e, s1) => (.error e, s1)
  | (.ok controllers, s1) => allDisksLoop env controllers s1

/-- The scan loop of IDRAC.get_virtual_disk_by_name: each candidate is
passed to self.get as if it were a uri and the fetched detail compared on
its Name key. -/
def findByNameLoop (env : Env) (want_name : String) :
    List JValue → SessState → Except PyErr (Option JValue) × SessState
  | [], s => (.ok none, s)
  | disk :: rest, s =>
    match IDRAC.get env disk s with
    | (.error e, s1) => (.error e, s1)
    | (.ok detail, s1) =>
      match pyGetItem detail "Name" with
      | .error e => (.error e, s1)
      | .ok v =>
        if pyEq v (.str want_name) then (.ok (some detail), s1)
        else findByNameLoop env want_name rest s1

/-- IDRAC.get_virtual_disk_by_name.  The implicit Python return None when
the loop is exhausted is the none result. -/
def IDRAC.get_virtual_disk_by_name (env : Env) (want_name : String)
    (s : SessState) : Except PyErr (Option JValue) × SessState :=
  match IDRAC.list_all_virtual_disks env false s with
  | (.error e, s1) => (.error e, s1)
  | (.ok disks, s1) => findByNameLoop env want_name disks s1

/-- The scan loop of IDRAC.get_virtual_disk_by_id, comparing the Id key. -/
def findByIdLoop (env : Env) (want_id : String) :
    List JValue → SessState → Except PyErr (Option JValue) × SessState
  | [], s => (.ok none, s)
  | disk :: rest, s =>
    match IDRAC.get env disk s with
    | (.error e, s1) => (.error e, s1)
    | (.ok detail, s1) =>
      match pyGetItem detail "Id" with
      | .error e => (.error e, s1)
      | .ok v =>
        if pyEq v (.str want_id) then (.ok (some detail), s1)
        else findByIdLoop env want_id rest s1

/-- IDRAC.get_virtual_disk_by_id. -/
def IDRAC.get_virtual_disk_by_id (env : Env) (want_id : String)
    (s : SessState) : Except PyErr (Option JValue) × SessState :=
  match IDRAC.list_all_virtual_disks env false s with
  | (.error e, s1) => (.error e, s1)
  | (.ok disks, s1) => findByIdLoop env want_id disks s1

/-- jid.startswith("/"): true exactly when the first character is a
slash. -/
def startsWithSlash (s : String) : Bool :=
  match s.toList with
  | [] => false
  | c :: _ => c == '/'

/-- The path resolution of IDRAC.get_job: an identifier that already starts
with a slash is used unchanged, a bare job id is joined under the jobs
container path. -/
def resolve_job_path (jid : String) : String :=
  if startsWithSlash jid then jid else RESOURCES.jobs ++ "/" ++ jid

/-- IDRAC.get_job: resolve the identifier and fetch it fresh. -/
def IDRAC.get_job (env : Env) (jid : String) (s : SessState) :
    Except PyErr JValue × SessState :=
  IDRAC.get env (.str (resolve_job_path jid)) s

/-- The message classification of IDRAC.get_job_state, given that the
Message value is a string. -/
def classify_message (m : String) : JOB_STATE :=
  if strContainsSub "failed" (pyLower m) then .failed
  else if m = "Task successfully scheduled." then .scheduled
  else if m = "Job in progress." then .running
  else if m = "Job completed successfully." then .finished
  else .unknown

/-- IDRAC.get_job_state: read job["Message"] (KeyError when absent, and a
non-string message has no .lower attribute) and classify it. -/
def IDRAC.get_job_state (job : JValue) : Except PyErr JOB_STATE :=
  match pyGetItem job "Message" with
  | .error e => .error e
  | .ok (.str m) => .ok (classify_message m)
  | .ok _ => .error .attributeError

/-- IDRAC.get_system: an always-fresh fetch of the system singleton. -/
def IDRAC.get_system (env : Env) (s : SessState) :
    Except PyErr JValue × SessState :=
  IDRAC.get env (.str RESOURCES.system) s

/-- Python truthiness of the timeout argument in the guard
"if timeout and ...": None and 0 are falsy. -/
def timeoutTruthy : Option Nat → Bool
  | none => false
  | some t => t != 0

/-- The numeric value compared against the elapsed time (only consulted
when the timeout is truthy). -/
def timeoutVal : Option Nat → Nat
  | none => 0
  | some t => t

/-- The while-True loop of IDRAC.wait_for_power_state: fetch the system,
compare its PowerState against the wanted state, raise TimeoutError once
the elapsed time exceeds a truthy timeout, else sleep 5 and poll again. -/
def wfpsLoop (env : Env) (want : String) (timeout : Option Nat)
    (time_start : Nat) : Nat → SessState → Except PyErr Unit × SessState
  | 0, s => (.error .fuelExhausted, s)
  | fuel + 1, s =>
    match IDRAC.get_system env s with
    | (.error e, s1) => (.error e, s1)
    | (.ok system, s1) =>
      match pyGetItem system "PowerState" with
      | .error e => (.error e, s1)
      | .ok have_state =>
        if pyEq (.str want) have_state then (.ok (), s1)
        else if timeoutTruthy timeout
            && decide (timeoutVal timeout < s1.clock - time_start) then
          (.error .timeoutError, s1)
        else
          wfpsLoop env want timeout time_start fuel { s1 with clock := s1.clock + 5 }

/-- IDRAC.wait_for_power_state: record time_start and run the loop. -/
def IDRAC.wait_for_power_state (env : Env) (want : String)
    (timeout : Option Nat) (fuel : Nat) (s : SessState) :
    Except PyErr Unit × SessState :=
  wfpsLoop env want timeout s.clock fuel s

/-- The while-True loop of IDRAC.wait_for_job_state: fetch the job (the
identifier is resolved on every poll), classify its message, compare with
the wanted state, with the same timeout handling as the power loop. -/
def wfjsLoop (env : Env) (jid : String) (want : JOB_STATE)
    (timeout : Option Nat) (time_start : Nat) :
    Nat → SessState → Except PyErr Unit × SessState
  | 0, s => (.error .fuelExhausted, s)
  | fuel + 1, s =>
    match IDRAC.get_job env jid s with
    | (.error e, s1) => (.error e, s1)
    | (.ok job, s1) =>
      match IDRAC.get_job_state job with
      | .error e => (.error e, s1)
      | .ok have_state =>
        if have_state = want then (.ok (), s1)
        else if timeoutTruthy timeout
            && decide (timeoutVal timeout < s1.clock - time_start) then
          (.error .timeoutError, s1)
        else
          wfjsLoop env jid want timeout time_start fuel { s1 with clock := s1.clock + 5 }

/-- IDRAC.wait_for_job_state. -/
def IDRAC.wait_for_job_state (env : Env) (jid : String) (want : JOB_STATE)
    (timeout : Option Nat) (fuel : Nat) (s : SessState) :
    Except PyErr Unit × SessState :=
  wfjsLoop env jid want timeout s.clock fuel s

/-- IDRAC.reset_system: the "#ComputerSystem.Reset" action on the system
resource with the given ResetType. -/
def IDRAC.reset_system (env : Env) (reset_type : String) (s : SessState) :
    Except PyErr JValue × SessState :=
  IDRAC._execute_action env RESOURCES.system "#ComputerSystem.Reset"
    [("ResetType", .str reset_type)] s

/-- IDRAC.power_cycle_system: fetch the power state; when On, issue a
graceful shutdown and wait for Off, escalating to ForceOff plus a second
full wait when the first wait raises TimeoutError (any other error, and a
second TimeoutError, propagate); finally issue the On reset and wait for
On. -/
def IDRAC.power_cycle_system (env : Env) (timeout : Option Nat) (fuel : Nat)
    (s : SessState) : Except PyErr Unit × SessState :=
  match IDRAC.get_system env s with
  | (.error e, s1) => (.error e, s1)
  | (.ok system, s1) =>
    match pyGetItem system "PowerState" with
    | .error e => (.error e, s1)
    | .ok ps =>
      let afterShutdown : Except PyErr Unit × SessState :=
        if pyEq ps (.str "On") then
          match IDRAC.reset_system env "GracefulShutdown" s1 with
          | (.error e, s2) => (.error e, s2)
          | (.ok _, s2) =>
            match IDRAC.wait_for_power_state env "Off" timeout fuel s2 with
            | (.error .timeoutError, s3) =>
              match IDRAC.reset_system env "ForceOff" s3 with
              | (.error e, s4) => (.error e, s4)
              | (.ok _, s4) => IDRAC.wait_for_power_state env "Off" timeout fuel s4
            | (.ok u, s3) => (.ok u, s3)
            | (.error e, s3) => (.error e, s3)
        else (.ok (), s1)
      match afterShutdown with
      | (.error e, s5) => (.error e, s5)
      | (.ok _, s5) =>
        match IDRAC.reset_system env "On" s5 with
        | (.error e, s6) => (.error e, s6)
        | (.ok _, s6) => IDRAC.wait_for_power_state env "On" timeout fuel s6

/-
Definitions used only by the verification layer: observation helpers and
the concrete environments that instantiate the theorems.
-/

/-- The POST requests (action invocations) recorded in a trace. -/
def postsOf (tr : List ReqEv) : List ReqEv :=
  tr.filter (fun ev => ev.method == "POST")

/-- A successful JSON response carrying the given document. -/
def okJsonResponse (v : JValue) : Response :=
  { status := 200, contentType := "application/json", body := .json v, location := none }

/-- A successful response with an empty body, as returned by a reset
action invocation. -/
def emptyOkResponse : Response :=
  { status := 200, contentType := "application/json", body := .empty, location := none }

/-- The representation a successful GET of okJsonResponse (.obj fields)
returns: the document augmented with the empty Location header. -/
def located (fields : List (String × JValue)) : JValue :=
  .obj (setField fields "_location" (.str ""))

/-- The vendor error body of the Redfish error contract: an "error" object
holding an "@Message.ExtendedInfo" list of MessageId/Message entries. -/
def vendorBody (pairs : List (JValue × JValue)) : JValue :=
  .obj [("error", .obj [("@Message.ExtendedInfo",
    .arr (pairs.map (fun p => .obj [("MessageId", p.1), ("Message", p.2)])))])]

/-- A fresh session state. -/
def initState : SessState := ⟨[], 0, [], 0⟩

/-- The target path advertised by the concrete reset descriptor. -/
def tgtOn : String :=
  "/redfish/v1/Systems/System.Embedded.1/Actions/ComputerSystem.Reset"

/-- A concrete ComputerSystem.Reset action descriptor. -/
def rdOn : List (String × JValue) :=
  [("ResetType@Redfish.AllowableValues",
    .arr [.str "On", .str "ForceOff", .str "GracefulRestart",
          .str "GracefulShutdown", .str "PushPowerButton", .str "Nmi",
          .str "PowerCycle"]),
   ("target", .str tgtOn)]

/-- A concrete Actions object holding only the reset action. -/
def actsOn : List (String × JValue) :=
  [("#ComputerSystem.Reset", .obj rdOn)]

/-- System resource fields reporting PowerState On with a valid
ComputerSystem.Reset action descriptor. -/
def sysOnFields : List (String × JValue) :=
  [("PowerState", .str "On"), ("Actions", .obj actsOn)]

/-- An environment whose system always reports PowerState On and whose
action invocations succeed with empty bodies. -/
def envAlwaysOn : Env :=
  ⟨fun _ m _ => if m == "POST" then emptyOkResponse
                else okJsonResponse (.obj sysOnFields)⟩

/-- An environment whose job always reports the in-progress message. -/
def envJobRunning : Env :=
  ⟨fun _ _ _ => okJsonResponse (.obj [("Message", .str "Job in progress.")])⟩

/-- An environment that answers every request with HTTP 400 and a body
that does not parse as JSON. -/
def env400bad : Env :=
  ⟨fun _ _ _ => ⟨400, "application/json", .invalidJson, none⟩⟩

/-- Two concrete vendor error entries, as in the HTTP 400 scenario. -/
def vendorPairs : List (JValue × JValue) :=
  [(.str "IDRAC.2.7.SYS055", .str "first vendor message"),
   (.str "IDRAC.2.7.SYS056", .str "second vendor message")]

/-- An environment answering every request with HTTP 400 and the two-entry
vendor error body. -/
def envVendor : Env :=
  ⟨fun _ _ _ => ⟨400, "application/json", .json (vendorBody vendorPairs), none⟩⟩

/-- An environment whose responses depend on the request counter: the first
request sees PowerState On, later requests see PowerState Off. -/
def envFlip : Env :=
  ⟨fun n _ _ => if n == 0 then okJsonResponse (.obj [("PowerState", .str "On")])
                else okJsonResponse (.obj [("PowerState", .str "Off")])⟩

/-- An environment whose storage collection is empty. -/
def envNoDisk : Env :=
  ⟨fun _ _ _ => okJsonResponse (.obj [("Members", .arr [])])⟩

/-- A cached resource with one action named Foo whose parameter Bar allows
only X and Y, as in the invalid-parameter scenario. -/
def fooActionRes : JValue :=
  .obj [("Actions", .obj [("Foo", .obj
    [("Bar@Redfish.AllowableValues", .arr [.str "X", .str "Y"]),
     ("target", .str "/redfish/v1/Foo")])])]

/-- A session state whose cache already holds the Foo resource. -/
def fooState : SessState :=
  ⟨[("/redfish/v1/Thing", fooActionRes)], 0, [], 0⟩

/-- A storage controller path used by the concrete disk scenario. -/
def ctrlPath : String := "/redfish/v1/Systems/System.Embedded.1/Storage/RAID.1"

/-- A volume path under that controller. -/
def volPath : String := ctrlPath ++ "/Volumes/Disk.1"

/-- An environment exposing one storage controller with one virtual disk
named V1 with id Disk.1. -/
def envOneDisk : Env := ⟨fun _ _ u =>
  if u == RESOURCES.storage then
    okJsonResponse (.obj [("Members", .arr [.obj [("@odata.id", .str ctrlPath)]])])
  else if u == ctrlPath ++ "/Volumes" then
    okJsonResponse (.obj [("Members", .arr [.obj [("@odata.id", .str volPath)]])])
  else
    okJsonResponse (.obj [("Id", .str "Disk.1"), ("Name", .str "V1")])⟩

/-
Helper lemmas about the dict model and the transport layer.
-/

/-- Reading back the key just assigned returns the assigned value. -/
theorem lookup_set_self (c : List (String × JValue)) (k : String) (v : JValue) :
    lookupField (setField c k v) k = some v := by
  induction c with
  | nil => simp [setField, lookupField]
  | cons p rest ih =>
    obtain ⟨k1, w⟩ := p
    by_cases hk : k1 = k
    · subst hk
      simp [setField, lookupField]
    · simp [setField, lookupField, hk, ih]

/-- Assigning one key leaves lookups of other keys unchanged. -/
theorem lookup_set_ne (c : List (String × JValue)) (k1 k2 : String) (v : JValue)
    (h : k1 ≠ k2) : lookupField (setField c k1 v) k2 = lookupField c k2 := by
  induction c with
  | nil => simp [setField, lookupField, h]
  | cons p rest ih =>
    obtain ⟨k, w⟩ := p
    by_cases hk : k = k1
    · subst hk
      simp [setField, lookupField, h]
    · simp only [setField, beq_iff_eq, hk, if_false, lookupField]
      by_cases h2 : k = k2
      · simp [h2]
      · simp [h2, ih]

/-- Reassigning the same key to the same value changes nothing. -/
theorem set_set_same (c : List (String × JValue)) (k : String) (v : JValue) :
    setField (setField c k v) k v = setField c k v := by
  induction c with
  | nil => simp [setField]
  | cons p rest ih =>
    obtain ⟨k1, w⟩ := p
    by_cases hk : k1 = k
    · simp [setField, hk]
    · simp [setField, hk, ih]

/-- The well-known system path contains no url scheme separator. -/
theorem system_no_scheme : strContainsSub "://" RESOURCES.system = false := by decide

/-- Splitting the JSON content type at semicolons returns it unchanged. -/
theorem ctHead_json : ctHead "application/json" = "application/json" := by decide

/-- A GET whose response is a successful JSON object fetches once, returns
the document augmented with the Location header and stores it in the cache
under the requested path. -/
theorem get_ok (env : Env) (u : String) (fields : List (String × JValue))
    (s : SessState)
    (hu : strContainsSub "://" u = false)
    (hresp : env.respond s.reqCount "GET" u = okJsonResponse (.obj fields)) :
    IDRAC.get env (.str u) s =
      (.ok (located fields),
       { s with reqCount := s.reqCount + 1,
                trace := s.trace ++ [⟨"GET", u, none⟩],
                cache := setField s.cache u (located fields) }) := by
  unfold IDRAC.get IDRAC.request
  simp [pyContainsVal, hu, hresp, okJsonResponse, ctHead_json, updateLocation,
    locString, located]

/-- A cache hit returns the stored value and leaves the session state
untouched: no network request, no trace event. -/
theorem cached_hit (env : Env) (u : String) (v : JValue) (s : SessState)
    (h : lookupField s.cache u = some v) :
    IDRAC.get_cached env (.str u) s = (.ok v, s) := by
  unfold IDRAC.get_cached
  simp [h]

/-- A cache miss makes get_cached behave exactly like get. -/
theorem cached_miss (env : Env) (u : String) (s : SessState)
    (h : lookupField s.cache u = none) :
    IDRAC.get_cached env (.str u) s = IDRAC.get env (.str u) s := by
  unfold IDRAC.get_cached
  simp [h]

theorem request_state (env : Env) (m : String) (uri : JValue)
    (p : Option (List (String × JValue))) (s : SessState) :
    (IDRAC.request env m uri p s).2 = s ∨
    ∃ u, uri = .str u ∧ (IDRAC.request env m uri p s).2 =
      { s with reqCount := s.reqCount + 1, trace := s.trace ++ [⟨m, u, p⟩] } := by
  unfold IDRAC.request
  split
  · exact Or.inl rfl
  · exact Or.inl rfl
  · split
    · refine Or.inr ⟨_, rfl, ?_⟩
      dsimp only
      repeat' split
      all_goals rfl
    · exact Or.inl rfl

theorem postsOf_append (a b : List ReqEv) : postsOf (a ++ b) = postsOf a ++ postsOf b := by
  simp [postsOf, List.filter_append]

theorem postsOf_getev (u : String) : postsOf [⟨"GET", u, none⟩] = [] := rfl

theorem get_posts (env : Env) (uri : JValue) (s : SessState) :
    postsOf ((IDRAC.get env uri s).2).trace = postsOf s.trace := by
  unfold IDRAC.get
  have hs := request_state env "GET" uri none s
  cases hreq : IDRAC.request env "GET" uri none s with
  | mk r s2 =>
    rw [hreq] at hs
    cases r with
    | error e =>
      dsimp
      rcases hs with h | ⟨u, hu, h⟩ <;> subst h <;>
        simp [postsOf_append, postsOf_getev]
    | ok v =>
      rcases hs with h | ⟨u, hu, h⟩
      · subst h
        cases uri <;> simp
      · subst hu
        subst h
        cases (JValue.str u) <;> simp [postsOf_append, postsOf_getev]

theorem get_cached_posts (env : Env) (uri : JValue) (s : SessState) :
    postsOf ((IDRAC.get_cached env uri s).2).trace = postsOf s.trace := by
  unfold IDRAC.get_cached
  cases uri <;> try rfl
  case str u =>
    dsimp only
    cases h : lookupField s.cache u with
    | some v => rfl
    | none => exact get_posts env (.str u) s

theorem pyGetItem_ne_timeout (v : JValue) (k : String) :
    pyGetItem v k ≠ .error .timeoutError := by
  unfold pyGetItem
  split
  · split <;> simp
  · simp

theorem pyContainsVal_ne_timeout (c x : JValue) :
    pyContainsVal c x ≠ .error .timeoutError := by
  unfold pyContainsVal
  split
  · simp
  · split <;> simp
  · split <;> simp
  · simp

theorem dictGet_ne_timeout (v : JValue) (k : String) (d : JValue) :
    dictGet v k d ≠ .error .timeoutError := by
  unfold dictGet
  split
  · split <;> simp
  · simp

theorem extInfoPairs_ne_timeout (es : List JValue) :
    extInfoPairs es ≠ .error .timeoutError := by
  induction es with
  | nil => simp [extInfoPairs]
  | cons e rest ih =>
    unfold extInfoPairs
    cases h1 : pyGetItem e "MessageId" with
    | error err =>
      have hne := pyGetItem_ne_timeout e "MessageId"
      rw [h1] at hne
      simpa using hne
    | ok mid =>
      simp only [h1]
      cases h2 : pyGetItem e "Message" with
      | error err =>
        have hne := pyGetItem_ne_timeout e "Message"
        rw [h2] at hne
        simpa using hne
      | ok msg =>
        simp only [h2]
        cases h3 : extInfoPairs rest with
        | error err =>
          rw [h3] at ih
          simpa using ih
        | ok ps => simp [h3]

theorem opFailedErrors_ne_timeout (b : Body) :
    operationFailedErrors b ≠ .error .timeoutError := by
  cases b with
  | empty => simp [operationFailedErrors]
  | invalidJson => simp [operationFailedErrors]
  | json data =>
    unfold operationFailedErrors
    cases h1 : pyContainsVal data (.str "error") with
    | error e =>
      simp only [h1]
      have hne := pyContainsVal_ne_timeout data (.str "error")
      rw [h1] at hne
      simpa using hne
    | ok hasErr =>
      simp only [h1]
      cases hasErr with
      | false => simp
      | true =>
        cases h2 : pyGetItem data "error" with
        | error e =>
          have hne := pyGetItem_ne_timeout data "error"
          rw [h2] at hne
          simpa using hne
        | ok errObj =>
          simp only [h2]
          cases h3 : dictGet errObj "@Message.ExtendedInfo" (.arr []) with
          | error e =>
            have hne := dictGet_ne_timeout errObj "@Message.ExtendedInfo" (.arr [])
            rw [h3] at hne
            simpa using hne
          | ok info =>
            cases info with
            | arr entries => exact extInfoPairs_ne_timeout entries
            | str cs =>
              dsimp only
              split <;> simp
            | obj fs =>
              dsimp only
              split <;> simp
            | null => simp
            | bool x => simp
            | num n => simp

theorem updateLocation_ne_timeout (v : JValue) (loc : Option String) :
    updateLocation v loc ≠ .error .timeoutError := by
  unfold updateLocation
  split <;> simp

theorem request_ne_timeout (env : Env) (m : String) (uri : JValue)
    (p : Option (List (String × JValue))) (s : SessState) :
    (IDRAC.request env m uri p s).1 ≠ .error .timeoutError := by
  unfold IDRAC.request
  cases hc : pyContainsVal uri (.str "://") with
  | error e =>
    have hne := pyContainsVal_ne_timeout uri (.str "://")
    rw [hc] at hne
    simpa using hne
  | ok b =>
    cases b with
    | true => simp
    | false =>
      cases uri with
      | str u =>
        dsimp only
        split
        · cases hof : operationFailedErrors (env.respond s.reqCount m u).body with
          | ok errs => simp
          | error e =>
            have hne := opFailedErrors_ne_timeout (env.respond s.reqCount m u).body
            rw [hof] at hne
            simpa using hne
        · split
          · simp
          · split
            · split
              · simp
              · rename_i heq
                unfold updateLocation at heq
                simp_all
            · simp
            · split
              · simp
              · rename_i heq
                unfold updateLocation at heq
                split at heq <;> (cases heq <;> simp)
      | null => simp
      | bool b => simp
      | num n => simp
      | arr xs => simp
      | obj fs => simp

theorem get_ne_timeout (env : Env) (uri : JValue) (s : SessState) :
    (IDRAC.get env uri s).1 ≠ .error .timeoutError := by
  unfold IDRAC.get
  cases hreq : IDRAC.request env "GET" uri none s with
  | mk r s2 =>
    have hne := request_ne_timeout env "GET" uri none s
    rw [hreq] at hne
    cases r with
    | error e => simpa using hne
    | ok v => cases uri <;> simp

theorem get_job_state_ne_timeout (job : JValue) :
    IDRAC.get_job_state job ≠ .error .timeoutError := by
  unfold IDRAC.get_job_state
  cases h : pyGetItem job "Message" with
  | error e =>
    have hne := pyGetItem_ne_timeout job "Message"
    rw [h] at hne
    simpa using hne
  | ok v => cases v <;> simp

theorem get_job_ne_timeout (env : Env) (jid : String) (s : SessState) :
    (IDRAC.get_job env jid s).1 ≠ .error .timeoutError :=
  get_ne_timeout env (.str (resolve_job_path jid)) s

theorem wfjsLoop_falsy_no_timeout (env : Env) (jid : String) (want : JOB_STATE)
    (tmo : Option Nat) (hto : timeoutTruthy tmo = false) (ts : Nat) :
    ∀ fuel s, (wfjsLoop env jid want tmo ts fuel s).1 ≠ .error .timeoutError := by
  intro fuel
  induction fuel with
  | zero => intro s; simp [wfjsLoop]
  | succ n ih =>
    intro s
    unfold wfjsLoop
    cases hj : IDRAC.get_job env jid s with
    | mk r s1 =>
      cases r with
      | error e =>
        have hne := get_job_ne_timeout env jid s
        rw [hj] at hne
        simpa using hne
      | ok job =>
        dsimp only
        cases hs : IDRAC.get_job_state job with
        | error e =>
          have hne := get_job_state_ne_timeout job
          rw [hs] at hne
          simpa using hne
        | ok have_state =>
          dsimp only
          by_cases hw : have_state = want
          · simp [hw]
          · rw [if_neg hw]
            simp only [hto, Bool.false_and, Bool.false_eq_true, if_false]
            exact ih _

theorem wfjsLoop_zero_eq_none (env : Env) (jid : String) (want : JOB_STATE)
    (ts : Nat) :
    ∀ fuel s, wfjsLoop env jid want (some 0) ts fuel s
      = wfjsLoop env jid want none ts fuel s := by
  intro fuel
  induction fuel with
  | zero => intro s; rfl
  | succ n ih =>
    intro s
    unfold wfjsLoop
    cases hj : IDRAC.get_job env jid s with
    | mk r s1 =>
      cases r with
      | error e => rfl
      | ok job =>
        dsimp only
        cases hs : IDRAC.get_job_state job with
        | error e => rfl
        | ok have_state =>
          dsimp only
          by_cases hw : have_state = want
          · simp [hw]
          · rw [if_neg hw, if_neg hw]
            simp only [timeoutTruthy, bne_self_eq_false, Bool.false_and,
              Bool.false_eq_true, if_false]
            exact ih _

theorem wfpsLoop_falsy_no_timeout (env : Env) (want : String)
    (tmo : Option Nat) (hto : timeoutTruthy tmo = false) (ts : Nat) :
    ∀ fuel s, (wfpsLoop env want tmo ts fuel s).1 ≠ .error .timeoutError := by
  intro fuel
  induction fuel with
  | zero => intro s; simp [wfpsLoop]
  | succ n ih =>
    intro s
    unfold wfpsLoop
    cases hg : IDRAC.get_system env s with
    | mk r s1 =>
      cases r with
      | error e =>
        have hne := get_ne_timeout env (.str RESOURCES.system) s
        rw [show IDRAC.get_system env s = IDRAC.get env (.str RESOURCES.system) s from rfl] at hg
        rw [hg] at hne
        simpa using hne
      | ok system =>
        dsimp only
        cases hs : pyGetItem system "PowerState" with
        | error e =>
          have hne := pyGetItem_ne_timeout system "PowerState"
          rw [hs] at hne
          simpa using hne
        | ok have_state =>
          dsimp only
          by_cases hw : pyEq (.str want) have_state = true
          · simp [hw]
          · rw [Bool.not_eq_true] at hw
            simp only [hw, Bool.false_eq_true, if_false]
            simp only [hto, Bool.false_and, Bool.false_eq_true, if_false]
            exact ih _

theorem wfpsLoop_zero_eq_none (env : Env) (want : String) (ts : Nat) :
    ∀ fuel s, wfpsLoop env want (some 0) ts fuel s
      = wfpsLoop env want none ts fuel s := by
  intro fuel
  induction fuel with
  | zero => intro s; rfl
  | succ n ih =>
    intro s
    unfold wfpsLoop
    cases hg : IDRAC.get_system env s with
    | mk r s1 =>
      cases r with
      | error e => rfl
      | ok system =>
        dsimp only
        cases hs : pyGetItem system "PowerState" with
        | error e => rfl
        | ok have_state =>
          dsimp only
          by_cases hw : pyEq (.str want) have_state = true
          · simp [hw]
          · rw [Bool.not_eq_true] at hw
            simp only [hw, Bool.false_eq_true, if_false]
            simp only [timeoutTruthy, bne_self_eq_false, Bool.false_and,
              Bool.false_eq_true, if_false]
            exact ih _

theorem sessEq (c1 c2 : List (String × JValue)) (r1 r2 : Nat)
    (tr1 tr2 : List ReqEv) (k1 k2 : Nat)
    (hc : c1 = c2) (hr : r1 = r2) (htr : tr1 = tr2) (hk : k1 = k2) :
    (⟨c1, r1, tr1, k1⟩ : SessState) = ⟨c2, r2, tr2, k2⟩ := by
  subst hc
  subst hr
  subst htr
  subst hk
  rfl

theorem wfps_const_timeout (env : Env) (fields : List (String × JValue))
    (want : String) (pv : JValue) (t ts : Nat)
    (hresp : ∀ n, env.respond n "GET" RESOURCES.system = okJsonResponse (.obj fields))
    (hps : lookupField fields "PowerState" = some pv)
    (hne : pyEq (.str want) pv = false)
    (ht : t ≠ 0) :
    ∀ fuel j s, s.clock = ts + 5 * j → j ≤ t / 5 + 1 → t / 5 + 2 - j ≤ fuel →
    wfpsLoop env want (some t) ts fuel s =
      (.error .timeoutError,
       { s with
         reqCount := s.reqCount + (t / 5 + 2 - j),
         trace := s.trace ++ List.replicate (t / 5 + 2 - j) ⟨"GET", RESOURCES.system, none⟩,
         clock := ts + 5 * (t / 5 + 1),
         cache := setField s.cache RESOURCES.system (located fields) }) := by
  intro fuel
  induction fuel with
  | zero => intro j s h1 h2 h3; omega
  | succ n ih =>
    intro j s hclock hj hfuel
    have hq := Nat.div_add_mod t 5
    have hr : t % 5 < 5 := Nat.mod_lt _ (by norm_num)
    have hget := get_ok env RESOURCES.system fields s system_no_scheme (hresp s.reqCount)
    have hlook : pyGetItem (located fields) "PowerState" = .ok pv := by
      simp [pyGetItem, located,
        lookup_set_ne _ _ _ _ (by decide : "_location" ≠ "PowerState"), hps]
    have htt : (t != 0) = true := by simp [ht]
    unfold wfpsLoop
    rw [show IDRAC.get_system env s = IDRAC.get env (.str RESOURCES.system) s from rfl,
      hget]
    dsimp only
    rw [hlook]
    dsimp only
    simp only [hne, Bool.false_eq_true, if_false, timeoutTruthy, timeoutVal, htt,
      Bool.true_and]
    obtain ⟨sc, srq, st, sck⟩ := s
    dsimp only at hclock ⊢
    by_cases hcase : j = t / 5 + 1
    · rw [decide_eq_true (by omega : t < sck - ts)]
      have hcnt : t / 5 + 2 - j = 1 := by omega
      rw [if_pos rfl]
      refine congrArg (Prod.mk (Except.error PyErr.timeoutError)) (sessEq _ _ _ _ _ _ _ _ rfl (by omega) ?_ (by omega))
      rw [hcnt]
      simp
    · rw [decide_eq_false (by omega : ¬ t < sck - ts)]
      rw [if_neg (by simp)]
      rw [ih (j + 1) _ (by dsimp only; omega) (by omega) (by omega)]
      dsimp only
      refine congrArg (Prod.mk (Except.error PyErr.timeoutError)) (sessEq _ _ _ _ _ _ _ _ (set_set_same _ _ _) (by omega) ?_ rfl)
      rw [show t / 5 + 2 - j = (t / 5 + 2 - (j + 1)) + 1 from by omega]
      simp [List.replicate_succ, List.append_assoc]

theorem located_item (fields : List (String × JValue)) (k : String) (v : JValue)
    (hk : "_location" ≠ k) (h : lookupField fields k = some v) :
    pyGetItem (located fields) k = .ok v := by
  simp [pyGetItem, located, lookup_set_ne _ _ _ _ hk, h]

theorem wfjs_const_timeout (env : Env) (jid : String)
    (jfields : List (String × JValue)) (msg : String) (want : JOB_STATE)
    (t ts : Nat)
    (hjid : strContainsSub "://" (resolve_job_path jid) = false)
    (hresp : ∀ n, env.respond n "GET" (resolve_job_path jid)
      = okJsonResponse (.obj jfields))
    (hmsg : lookupField jfields "Message" = some (.str msg))
    (hne : classify_message msg ≠ want)
    (ht : t ≠ 0) :
    ∀ fuel j s, s.clock = ts + 5 * j → j ≤ t / 5 + 1 → t / 5 + 2 - j ≤ fuel →
    wfjsLoop env jid want (some t) ts fuel s =
      (.error .timeoutError,
       { s with
         reqCount := s.reqCount + (t / 5 + 2 - j),
         trace := s.trace ++ List.replicate (t / 5 + 2 - j)
           ⟨"GET", resolve_job_path jid, none⟩,
         clock := ts + 5 * (t / 5 + 1),
         cache := setField s.cache (resolve_job_path jid) (located jfields) }) := by
  intro fuel
  induction fuel with
  | zero => intro j s h1 h2 h3; omega
  | succ n ih =>
    intro j s hclock hj hfuel
    have hq := Nat.div_add_mod t 5
    have hr : t % 5 < 5 := Nat.mod_lt _ (by norm_num)
    have hget := get_ok env (resolve_job_path jid) jfields s hjid (hresp s.reqCount)
    have hstate : IDRAC.get_job_state (located jfields) = .ok (classify_message msg) := by
      unfold IDRAC.get_job_state
      rw [located_item jfields "Message" (.str msg) (by decide) hmsg]
    have htt : (t != 0) = true := by simp [ht]
    unfold wfjsLoop
    rw [show IDRAC.get_job env jid s
      = IDRAC.get env (.str (resolve_job_path jid)) s from rfl, hget]
    dsimp only
    rw [hstate]
    dsimp only
    rw [if_neg hne]
    simp only [timeoutTruthy, timeoutVal, htt, Bool.true_and]
    obtain ⟨sc, srq, st, sck⟩ := s
    dsimp only at hclock ⊢
    by_cases hcase : j = t / 5 + 1
    · rw [decide_eq_true (by omega : t < sck - ts)]
      have hcnt : t / 5 + 2 - j = 1 := by omega
      rw [if_pos rfl]
      refine congrArg (Prod.mk (Except.error PyErr.timeoutError))
        (sessEq _ _ _ _ _ _ _ _ rfl (by omega) ?_ (by omega))
      rw [hcnt]
      simp
    · rw [decide_eq_false (by omega : ¬ t < sck - ts)]
      rw [if_neg (by simp)]
      rw [ih (j + 1) _ (by dsimp only; omega) (by omega) (by omega)]
      dsimp only
      refine congrArg (Prod.mk (Except.error PyErr.timeoutError))
        (sessEq _ _ _ _ _ _ _ _ (set_set_same _ _ _) (by omega) ?_ rfl)
      rw [show t / 5 + 2 - j = (t / 5 + 2 - (j + 1)) + 1 from by omega]
      simp [List.replicate_succ, List.append_assoc]

theorem wfps_first_match (env : Env) (fields : List (String × JValue))
    (want : String) (pv : JValue) (tmo : Option Nat) (fuel : Nat) (s : SessState)
    (hresp : env.respond s.reqCount "GET" RESOURCES.system
      = okJsonResponse (.obj fields))
    (hps : lookupField fields "PowerState" = some pv)
    (heq : pyEq (.str want) pv = true)
    (hfuel : fuel ≠ 0) :
    IDRAC.wait_for_power_state env want tmo fuel s =
      (.ok (), { s with reqCount := s.reqCount + 1,
                        trace := s.trace ++ [⟨"GET", RESOURCES.system, none⟩],
                        cache := setField s.cache RESOURCES.system (located fields) }) := by
  obtain ⟨fuel1, rfl⟩ : ∃ k, fuel = k + 1 := ⟨fuel - 1, by omega⟩
  unfold IDRAC.wait_for_power_state wfpsLoop
  rw [show IDRAC.get_system env s = IDRAC.get env (.str RESOURCES.system) s from rfl,
    get_ok env RESOURCES.system fields s system_no_scheme hresp]
  dsimp only
  rw [located_item fields "PowerState" pv (by decide) hps]
  dsimp only
  rw [heq, if_pos rfl]

theorem wfjs_first_match (env : Env) (jid : String)
    (jfields : List (String × JValue)) (msg : String) (want : JOB_STATE)
    (tmo : Option Nat) (fuel : Nat) (s : SessState)
    (hjid : strContainsSub "://" (resolve_job_path jid) = false)
    (hresp : env.respond s.reqCount "GET" (resolve_job_path jid)
      = okJsonResponse (.obj jfields))
    (hmsg : lookupField jfields "Message" = some (.str msg))
    (heq : classify_message msg = want)
    (hfuel : fuel ≠ 0) :
    IDRAC.wait_for_job_state env jid want tmo fuel s =
      (.ok (), { s with reqCount := s.reqCount + 1,
                        trace := s.trace ++ [⟨"GET", resolve_job_path jid, none⟩],
                        cache := setField s.cache (resolve_job_path jid)
                          (located jfields) }) := by
  obtain ⟨fuel1, rfl⟩ : ∃ k, fuel = k + 1 := ⟨fuel - 1, by omega⟩
  unfold IDRAC.wait_for_job_state wfjsLoop
  rw [show IDRAC.get_job env jid s
    = IDRAC.get env (.str (resolve_job_path jid)) s from rfl,
    get_ok env (resolve_job_path jid) jfields s hjid hresp]
  dsimp only
  have hstate : IDRAC.get_job_state (located jfields) = .ok (classify_message msg) := by
    unfold IDRAC.get_job_state
    rw [located_item jfields "Message" (.str msg) (by decide) hmsg]
  rw [hstate]
  dsimp only
  rw [if_pos heq]

theorem reset_ok (env : Env) (fields acts rd : List (String × JValue))
    (av : JValue) (tgt rt : String) (s : SessState)
    (hcache : lookupField s.cache RESOURCES.system = some (located fields))
    (ha : lookupField fields "Actions" = some (.obj acts))
    (hract : lookupField acts "#ComputerSystem.Reset" = some (.obj rd))
    (hav : lookupField rd "ResetType@Redfish.AllowableValues" = some av)
    (hrt : pyContainsVal av (.str rt) = .ok true)
    (htg : lookupField rd "target" = some (.str tgt))
    (htgu : strContainsSub "://" tgt = false)
    (hpost : env.respond s.reqCount "POST" tgt = emptyOkResponse) :
    IDRAC.reset_system env rt s =
      (.ok (.obj [("_location", .str "")]),
       { s with reqCount := s.reqCount + 1,
                trace := s.trace ++ [⟨"POST", tgt, some [("ResetType", .str rt)]⟩] }) := by
  unfold IDRAC.reset_system IDRAC._execute_action
  rw [cached_hit env RESOURCES.system (located fields) s hcache]
  dsimp only
  rw [located_item fields "Actions" (.obj acts) (by decide) ha]
  dsimp only
  rw [show pyGetItem (.obj acts) "#ComputerSystem.Reset" = .ok (.obj rd) from by
    simp [pyGetItem, hract]]
  dsimp only
  have hvp : validate_params (.obj rd) [("ResetType", .str rt)] = .ok () := by
    unfold validate_params
    rw [show pyGetItem (.obj rd) ("ResetType" ++ "@Redfish.AllowableValues")
      = .ok av from by simp [pyGetItem, hav]]
    dsimp only
    rw [hrt]
    rfl
  rw [hvp]
  dsimp only
  rw [show pyGetItem (.obj rd) "target" = .ok (.str tgt) from by simp [pyGetItem, htg]]
  dsimp only
  unfold IDRAC.post IDRAC.request
  rw [show pyContainsVal (.str tgt) (.str "://")
    = .ok (strContainsSub "://" tgt) from rfl, htgu]
  dsimp only
  rw [hpost]
  simp [emptyOkResponse, ctHead_json, updateLocation, locString, setField]

theorem postsOf_replicate_get (n : Nat) (u : String) :
    postsOf (List.replicate n ⟨"GET", u, none⟩) = [] := by
  induction n with
  | zero => rfl
  | succ k ih => simp [List.replicate_succ, postsOf, List.filter_cons]

theorem startsWithSlash_append (a b : String) (h : startsWithSlash a = true) :
    startsWithSlash (a ++ b) = true := by
  unfold startsWithSlash at h ⊢
  rw [show (a ++ b).toList = a.toList ++ b.toList from rfl]
  cases hl : a.toList with
  | nil => rw [hl] at h; cases h
  | cons c rest =>
    rw [hl] at h
    simpa using h

/-
Claim theorems.
-/

/-- C2: for every input message string the job-state classifier returns
exactly one of the five states and never raises; a message containing the
substring "failed" in any letter case classifies as failed regardless of
other text; otherwise the three exact messages classify as scheduled,
running and finished respectively, and any other message as unknown. -/
theorem C2_job_state_classifier (m : String) :
    IDRAC.get_job_state (.obj [("Message", .str m)]) = .ok (classify_message m)
    ∧ (classify_message m = .unknown ∨ classify_message m = .scheduled
       ∨ classify_message m = .running ∨ classify_message m = .finished
       ∨ classify_message m = .failed)
    ∧ (strContainsSub "failed" (pyLower m) = true → classify_message m = .failed)
    ∧ (strContainsSub "failed" (pyLower m) = false →
        (m = "Task successfully scheduled." → classify_message m = .scheduled)
        ∧ (m = "Job in progress." → classify_message m = .running)
        ∧ (m = "Job completed successfully." → classify_message m = .finished)
        ∧ (m ≠ "Task successfully scheduled." → m ≠ "Job in progress." →
           m ≠ "Job completed successfully." → classify_message m = .unknown)) := by
  refine ⟨?_, ?_, ?_, ?_⟩
  · simp [IDRAC.get_job_state, pyGetItem, lookupField]
  · cases h : classify_message m <;> simp
  · intro h
    simp [classify_message, h]
  · intro h
    refine ⟨?_, ?_, ?_, ?_⟩
    · intro h1
      subst h1
      decide
    · intro h1
      subst h1
      decide
    · intro h1
      subst h1
      decide
    · intro h1 h2 h3
      unfold classify_message
      rw [if_neg (by simp [h]), if_neg h1, if_neg h2, if_neg h3]

/-- C2 witness: a free-text failure message classifies as failed, and the
exact in-progress message classifies as running. -/
theorem C2_witness :
    classify_message "Job FAILED to complete" = .failed
    ∧ classify_message "Job in progress." = .running :=
  ⟨(C2_job_state_classifier "Job FAILED to complete").2.2.1 (by decide),
   ((C2_job_state_classifier "Job in progress.").2.2.2 (by decide)).2.1 rfl⟩

/-- C8: job path resolution is idempotent: an identifier that already
starts with a slash is returned unchanged, a bare identifier is joined
under the jobs container path, and resolving a resolved path (or the same
identifier twice) yields the same path; get_job fetches the resolved
path. -/
theorem C8_resolve_job_path_idempotent (jid : String) :
    resolve_job_path (resolve_job_path jid) = resolve_job_path jid
    ∧ (startsWithSlash jid = true → resolve_job_path jid = jid)
    ∧ (startsWithSlash jid = false →
        resolve_job_path jid = RESOURCES.jobs ++ "/" ++ jid)
    ∧ (∀ env s, IDRAC.get_job env jid s
        = IDRAC.get env (.str (resolve_job_path jid)) s) := by
  refine ⟨?_, ?_, ?_, fun env s => rfl⟩
  · by_cases hs : startsWithSlash jid = true
    · have h1 : resolve_job_path jid = jid := by
        rw [resolve_job_path, if_pos hs]
      rw [h1]
      exact h1
    · have h1 : resolve_job_path jid = RESOURCES.jobs ++ "/" ++ jid := by
        rw [resolve_job_path, if_neg hs]
      rw [h1, resolve_job_path,
        if_pos (startsWithSlash_append _ _ (by decide))]
  · intro hs
    rw [resolve_job_path, if_pos hs]
  · intro hs
    rw [resolve_job_path, if_neg (by simp [hs])]

/-- C8 witness: a bare job id resolves under the jobs container, and
resolving twice is the same as resolving once. -/
theorem C8_witness :
    resolve_job_path (resolve_job_path "JID_123456")
      = resolve_job_path "JID_123456"
    ∧ resolve_job_path "JID_123456" = RESOURCES.jobs ++ "/" ++ "JID_123456" :=
  ⟨(C8_resolve_job_path_idempotent "JID_123456").1,
   (C8_resolve_job_path_idempotent "JID_123456").2.2.1 (by decide)⟩

/-- C9: a timeout of 0 is falsy in the guard of both waiting loops, so it
behaves exactly like passing no timeout: the deadline check is skipped and
the loop polls unboundedly, never raising TimeoutError. -/
theorem C9_zero_timeout_is_falsy :
    (∀ env jid want fuel s,
       IDRAC.wait_for_job_state env jid want (some 0) fuel s
         = IDRAC.wait_for_job_state env jid want none fuel s
       ∧ (IDRAC.wait_for_job_state env jid want (some 0) fuel s).1
         ≠ .error .timeoutError)
    ∧ (∀ env want fuel s,
       IDRAC.wait_for_power_state env want (some 0) fuel s
         = IDRAC.wait_for_power_state env want none fuel s
       ∧ (IDRAC.wait_for_power_state env want (some 0) fuel s).1
         ≠ .error .timeoutError) := by
  constructor
  · intro env jid want fuel s
    exact ⟨wfjsLoop_zero_eq_none env jid want s.clock fuel s,
           wfjsLoop_falsy_no_timeout env jid want (some 0) (by decide) s.clock fuel s⟩
  · intro env want fuel s
    exact ⟨wfpsLoop_zero_eq_none env want s.clock fuel s,
           wfpsLoop_falsy_no_timeout env want (some 0) (by decide) s.clock fuel s⟩

/-- C9 witness: with timeout 0 and a system that never reaches the wanted
state the power wait runs exactly as with no timeout at all. -/
theorem C9_witness :
    IDRAC.wait_for_power_state envAlwaysOn "Off" (some 0) 3 initState
      = IDRAC.wait_for_power_state envAlwaysOn "Off" none 3 initState :=
  (C9_zero_timeout_is_falsy.2 envAlwaysOn "Off" 3 initState).1

/-- C10: list_all_virtual_disks ignores its detail argument entirely: any
two detail values give the same result, namely the detail=True behaviour
forced on the per-controller listings. -/
theorem C10_list_all_ignores_detail (env : Env) (d1 d2 : Bool) (s : SessState) :
    IDRAC.list_all_virtual_disks env d1 s = IDRAC.list_all_virtual_disks env d2 s
    ∧ IDRAC.list_all_virtual_disks env d1 s
      = IDRAC.list_all_virtual_disks env true s :=
  ⟨rfl, rfl⟩

/-- C5: get always performs exactly one network fetch and unconditionally
replaces the cache entry for the path; get_cached performs zero fetches on
a hit, returning the stored representation unchanged, and behaves exactly
like get on a miss; hence after get the next get_cached returns the same
representation without network access, and after a second get returning
different data, get_cached reflects the new data. -/
theorem C5_cache_semantics (env : Env) (u : String)
    (fields1 fields2 : List (String × JValue)) (s : SessState)
    (hu : strContainsSub "://" u = false)
    (h1 : env.respond s.reqCount "GET" u = okJsonResponse (.obj fields1)) :
    IDRAC.get env (.str u) s =
      (.ok (located fields1),
       { s with reqCount := s.reqCount + 1,
                trace := s.trace ++ [⟨"GET", u, none⟩],
                cache := setField s.cache u (located fields1) })
    ∧ (∀ v, lookupField s.cache u = some v →
        IDRAC.get_cached env (.str u) s = (.ok v, s))
    ∧ (lookupField s.cache u = none →
        IDRAC.get_cached env (.str u) s = IDRAC.get env (.str u) s)
    ∧ IDRAC.get_cached env (.str u)
        { s with reqCount := s.reqCount + 1,
                 trace := s.trace ++ [⟨"GET", u, none⟩],
                 cache := setField s.cache u (located fields1) }
      = (.ok (located fields1),
         { s with reqCount := s.reqCount + 1,
                  trace := s.trace ++ [⟨"GET", u, none⟩],
                  cache := setField s.cache u (located fields1) })
    ∧ (env.respond (s.reqCount + 1) "GET" u = okJsonResponse (.obj fields2) →
        IDRAC.get env (.str u)
          { s with reqCount := s.reqCount + 1,
                   trace := s.trace ++ [⟨"GET", u, none⟩],
                   cache := setField s.cache u (located fields1) }
          = (.ok (located fields2),
             { s with reqCount := s.reqCount + 1 + 1,
                      trace := (s.trace ++ [⟨"GET", u, none⟩]) ++ [⟨"GET", u, none⟩],
                      cache := setField (setField s.cache u (located fields1)) u
                        (located fields2) })
        ∧ IDRAC.get_cached env (.str u)
            { s with reqCount := s.reqCount + 1 + 1,
                     trace := (s.trace ++ [⟨"GET", u, none⟩]) ++ [⟨"GET", u, none⟩],
                     cache := setField (setField s.cache u (located fields1)) u
                       (located fields2) }
          = (.ok (located fields2),
             { s with reqCount := s.reqCount + 1 + 1,
                      trace := (s.trace ++ [⟨"GET", u, none⟩]) ++ [⟨"GET", u, none⟩],
                      cache := setField (setField s.cache u (located fields1)) u
                        (located fields2) })) := by
  refine ⟨get_ok env u fields1 s hu h1,
          fun v hv => cached_hit env u v s hv,
          fun hn => cached_miss env u s hn,
          cached_hit env u _ _ (lookup_set_self _ _ _),
          fun h2 => ⟨?_, cached_hit env u _ _ (lookup_set_self _ _ _)⟩⟩
  exact get_ok env u fields2 _ hu h2

/-- C5 witness: get then get_cached on a fresh session against the counter
sensitive environment. -/
theorem C5_witness :
    IDRAC.get envFlip (.str RESOURCES.system) initState =
      (.ok (located [("PowerState", .str "On")]),
       { initState with reqCount := 1,
                        trace := [⟨"GET", RESOURCES.system, none⟩],
                        cache := setField [] RESOURCES.system
                          (located [("PowerState", .str "On")]) })
    ∧ IDRAC.get_cached envFlip (.str RESOURCES.system) initState
      = IDRAC.get envFlip (.str RESOURCES.system) initState := by
  have h := C5_cache_semantics envFlip RESOURCES.system
    [("PowerState", .str "On")] [("PowerState", .str "Off")] initState
    (by decide) rfl
  exact ⟨h.1, h.2.2.1 rfl⟩

/-- C4: the client-side validation of action invocation: a supplied value
outside the advertised allowed-value set fails with the ValueError carrying
the value (InvalidParameterValue), a parameter the descriptor does not
advertise fails with the KeyError on its allowable-values key
(UnknownParameter), and a missing action name fails with the KeyError on
the action name (ActionNotFound); in all three cases no POST is ever
issued. -/
theorem C4_action_validation (env : Env) (uri action : String)
    (s s1 : SessState) (objRes : JValue)
    (hgc : IDRAC.get_cached env (.str uri) s = (.ok objRes, s1)) :
    (∀ actionsObj act pname pval rest av,
      pyGetItem objRes "Actions" = .ok actionsObj →
      pyGetItem actionsObj action = .ok act →
      pyGetItem act (pname ++ "@Redfish.AllowableValues") = .ok av →
      pyContainsVal av pval = .ok false →
      IDRAC._execute_action env uri action ((pname, pval) :: rest) s
        = (.error (.valueErrorParam pval), s1)
      ∧ postsOf s1.trace = postsOf s.trace)
    ∧ (∀ actionsObj act pname pval rest,
      pyGetItem objRes "Actions" = .ok actionsObj →
      pyGetItem actionsObj action = .ok act →
      pyGetItem act (pname ++ "@Redfish.AllowableValues")
        = .error (.keyError (pname ++ "@Redfish.AllowableValues")) →
      IDRAC._execute_action env uri action ((pname, pval) :: rest) s
        = (.error (.keyError (pname ++ "@Redfish.AllowableValues")), s1)
      ∧ postsOf s1.trace = postsOf s.trace)
    ∧ (∀ actionsObj params,
      pyGetItem objRes "Actions" = .ok actionsObj →
      pyGetItem actionsObj action = .error (.keyError action) →
      IDRAC._execute_action env uri action params s
        = (.error (.keyError action), s1)
      ∧ postsOf s1.trace = postsOf s.trace) := by
  have hposts : postsOf s1.trace = postsOf s.trace := by
    have h := get_cached_posts env (.str uri) s
    rw [hgc] at h
    exact h
  refine ⟨?_, ?_, ?_⟩
  · intro actionsObj act pname pval rest av hA hact hav hcv
    refine ⟨?_, hposts⟩
    unfold IDRAC._execute_action
    rw [hgc]
    dsimp only
    rw [hA]
    dsimp only
    rw [hact]
    dsimp only
    rw [show validate_params act ((pname, pval) :: rest)
      = .error (.valueErrorParam pval) from by
        unfold validate_params
        rw [hav]
        dsimp only
        rw [hcv]]
  · intro actionsObj act pname pval rest hA hact hav
    refine ⟨?_, hposts⟩
    unfold IDRAC._execute_action
    rw [hgc]
    dsimp only
    rw [hA]
    dsimp only
    rw [hact]
    dsimp only
    rw [show validate_params act ((pname, pval) :: rest)
      = .error (.keyError (pname ++ "@Redfish.AllowableValues")) from by
        unfold validate_params
        rw [hav]]
  · intro actionsObj params hA hact
    unfold IDRAC._execute_action
    rw [hgc]
    dsimp only
    rw [hA]
    dsimp only
    rw [hact]
    exact ⟨rfl, hposts⟩

/-- C4 witness: invoking Foo with Bar out of the advertised set on a cached
resource fails with the ValueError on the value and issues no request at
all. -/
theorem C4_witness :
    IDRAC._execute_action envAlwaysOn "/redfish/v1/Thing" "Foo"
      [("Bar", .str "Z")] fooState
      = (.error (.valueErrorParam (.str "Z")), fooState)
    ∧ postsOf fooState.trace = postsOf fooState.trace := by
  have h := (C4_action_validation envAlwaysOn "/redfish/v1/Thing" "Foo"
    fooState fooState fooActionRes (cached_hit _ _ _ _ rfl)).1
  exact h _ _ "Bar" (.str "Z") [] _ rfl rfl rfl rfl

/-- C1: when the system reports PowerState On on every poll and never Off,
power_cycle_system issues a GracefulShutdown reset, waits a full timeout
window, issues a ForceOff reset, waits a second independent window of the
same length, and fails with TimeoutError; the trace shows exactly two POST
reset actions, GracefulShutdown then ForceOff, and never a third (no On
reset), each wait polling the system t / 5 + 2 times and sleeping
5 * (t / 5 + 1) time units. -/
theorem C1_power_cycle_escalation (env : Env)
    (fields acts rd : List (String × JValue)) (av : JValue) (tgt : String)
    (t fuel : Nat) (s : SessState)
    (hget : ∀ n, env.respond n "GET" RESOURCES.system = okJsonResponse (.obj fields))
    (hpost : ∀ n, env.respond n "POST" tgt = emptyOkResponse)
    (hps : lookupField fields "PowerState" = some (.str "On"))
    (ha : lookupField fields "Actions" = some (.obj acts))
    (hract : lookupField acts "#ComputerSystem.Reset" = some (.obj rd))
    (hav : lookupField rd "ResetType@Redfish.AllowableValues" = some av)
    (hgs : pyContainsVal av (.str "GracefulShutdown") = .ok true)
    (hfo : pyContainsVal av (.str "ForceOff") = .ok true)
    (htg : lookupField rd "target" = some (.str tgt))
    (htgu : strContainsSub "://" tgt = false)
    (ht : t ≠ 0) (hfuel : t / 5 + 2 ≤ fuel) :
    IDRAC.power_cycle_system env (some t) fuel s =
      (.error .timeoutError,
       { s with
         reqCount := s.reqCount + (2 * (t / 5) + 7),
         trace := s.trace
           ++ [⟨"GET", RESOURCES.system, none⟩]
           ++ [⟨"POST", tgt, some [("ResetType", .str "GracefulShutdown")]⟩]
           ++ List.replicate (t / 5 + 2) ⟨"GET", RESOURCES.system, none⟩
           ++ [⟨"POST", tgt, some [("ResetType", .str "ForceOff")]⟩]
           ++ List.replicate (t / 5 + 2) ⟨"GET", RESOURCES.system, none⟩,
         clock := s.clock + 10 * (t / 5 + 1),
         cache := setField s.cache RESOURCES.system (located fields) })
    ∧ postsOf (s.trace
           ++ [⟨"GET", RESOURCES.system, none⟩]
           ++ [⟨"POST", tgt, some [("ResetType", .str "GracefulShutdown")]⟩]
           ++ List.replicate (t / 5 + 2) ⟨"GET", RESOURCES.system, none⟩
           ++ [⟨"POST", tgt, some [("ResetType", .str "ForceOff")]⟩]
           ++ List.replicate (t / 5 + 2) ⟨"GET", RESOURCES.system, none⟩)
        = postsOf s.trace
           ++ [⟨"POST", tgt, some [("ResetType", .str "GracefulShutdown")]⟩,
               ⟨"POST", tgt, some [("ResetType", .str "ForceOff")]⟩] := by
  constructor
  · obtain ⟨sc, srq, st, sck⟩ := s
    unfold IDRAC.power_cycle_system
    rw [show IDRAC.get_system env ⟨sc, srq, st, sck⟩
      = IDRAC.get env (.str RESOURCES.system) ⟨sc, srq, st, sck⟩ from rfl,
      get_ok env RESOURCES.system fields _ system_no_scheme (hget srq)]
    dsimp only
    rw [located_item fields "PowerState" (.str "On") (by decide) hps]
    dsimp only
    rw [show pyEq (.str "On") (.str "On") = true from by decide, if_pos rfl]
    rw [reset_ok env fields acts rd av tgt "GracefulShutdown" _
      (lookup_set_self _ _ _) ha hract hav hgs htg htgu (hpost _)]
    dsimp only
    rw [show IDRAC.wait_for_power_state env "Off" (some t) fuel
        ⟨setField sc RESOURCES.system (located fields), srq + 1 + 1,
         st ++ [⟨"GET", RESOURCES.system, none⟩]
            ++ [⟨"POST", tgt, some [("ResetType", .str "GracefulShutdown")]⟩], sck⟩
      = wfpsLoop env "Off" (some t) sck fuel
        ⟨setField sc RESOURCES.system (located fields), srq + 1 + 1,
         st ++ [⟨"GET", RESOURCES.system, none⟩]
            ++ [⟨"POST", tgt, some [("ResetType", .str "GracefulShutdown")]⟩], sck⟩ from rfl,
      wfps_const_timeout env fields "Off" (.str "On") t sck hget hps (by decide) ht
        fuel 0 _ (by dsimp only; omega) (by omega) (by omega)]
    dsimp only
    rw [reset_ok env fields acts rd av tgt "ForceOff" _
      (lookup_set_self _ _ _) ha hract hav hfo htg htgu (hpost _)]
    dsimp only
    rw [show IDRAC.wait_for_power_state env "Off" (some t) fuel
        ⟨setField (setField sc RESOURCES.system (located fields)) RESOURCES.system
           (located fields),
         srq + 1 + 1 + (t / 5 + 2 - 0) + 1,
         (st ++ [⟨"GET", RESOURCES.system, none⟩]
            ++ [⟨"POST", tgt, some [("ResetType", .str "GracefulShutdown")]⟩]
            ++ List.replicate (t / 5 + 2 - 0) ⟨"GET", RESOURCES.system, none⟩)
            ++ [⟨"POST", tgt, some [("ResetType", .str "ForceOff")]⟩],
         sck + 5 * (t / 5 + 1)⟩
      = wfpsLoop env "Off" (some t) (sck + 5 * (t / 5 + 1)) fuel
        ⟨setField (setField sc RESOURCES.system (located fields)) RESOURCES.system
           (located fields),
         srq + 1 + 1 + (t / 5 + 2 - 0) + 1,
         (st ++ [⟨"GET", RESOURCES.system, none⟩]
            ++ [⟨"POST", tgt, some [("ResetType", .str "GracefulShutdown")]⟩]
            ++ List.replicate (t / 5 + 2 - 0) ⟨"GET", RESOURCES.system, none⟩)
            ++ [⟨"POST", tgt, some [("ResetType", .str "ForceOff")]⟩],
         sck + 5 * (t / 5 + 1)⟩ from rfl,
      wfps_const_timeout env fields "Off" (.str "On") t (sck + 5 * (t / 5 + 1)) hget hps
        (by decide) ht fuel 0 _ (by dsimp only; omega) (by omega) (by omega)]
    dsimp only
    refine congrArg (Prod.mk (Except.error PyErr.timeoutError))
      (sessEq _ _ _ _ _ _ _ _ ?_ (by omega) ?_ (by omega))
    · simp [set_set_same]
    · simp [List.append_assoc, Nat.sub_zero]
  · simp only [postsOf_append, postsOf_replicate_get, postsOf_getev]
    rw [show postsOf [(⟨"POST", tgt, some [("ResetType", .str "GracefulShutdown")]⟩ : ReqEv)]
      = [⟨"POST", tgt, some [("ResetType", .str "GracefulShutdown")]⟩] from rfl,
      show postsOf [(⟨"POST", tgt, some [("ResetType", .str "ForceOff")]⟩ : ReqEv)]
      = [⟨"POST", tgt, some [("ResetType", .str "ForceOff")]⟩] from rfl]
    simp

/-- C1 witness: the concrete always-On environment with timeout 10: the
whole power cycle fails with TimeoutError after exactly the two reset
posts, GracefulShutdown then ForceOff. -/
theorem C1_witness :
    (IDRAC.power_cycle_system envAlwaysOn (some 10) 4 initState).1
      = .error .timeoutError
    ∧ postsOf (IDRAC.power_cycle_system envAlwaysOn (some 10) 4 initState).2.trace
      = [⟨"POST", tgtOn, some [("ResetType", .str "GracefulShutdown")]⟩,
         ⟨"POST", tgtOn, some [("ResetType", .str "ForceOff")]⟩] := by
  have h := C1_power_cycle_escalation envAlwaysOn sysOnFields actsOn rdOn
    (.arr [.str "On", .str "ForceOff", .str "GracefulRestart",
           .str "GracefulShutdown", .str "PushPowerButton", .str "Nmi",
           .str "PowerCycle"]) tgtOn 10 4 initState
    (fun _ => rfl) (fun _ => rfl) rfl rfl rfl rfl rfl rfl rfl rfl
    (by decide) (by decide)
  rw [h.1]
  exact ⟨rfl, rfl⟩

/-- C7: the volume finders crash instead of scanning.  With one controller
exposing one volume, list_all_virtual_disks returns the full detail dict of
the volume, and get_virtual_disk_by_name and get_virtual_disk_by_id pass
that dict as the uri to self.get, which fails with AttributeError (a dict
has no startswith) before any Name or Id comparison; only an empty scan
returns the documented absence. -/
theorem C7_find_volume_crashes :
    (IDRAC.get_virtual_disk_by_name envOneDisk "V1" initState).1
      = .error .attributeError
    ∧ (IDRAC.get_virtual_disk_by_id envOneDisk "Disk.1" initState).1
      = .error .attributeError
    ∧ (IDRAC.get_virtual_disk_by_name envNoDisk "V1" initState).1 = .ok none
    ∧ (IDRAC.get_virtual_disk_by_id envNoDisk "Disk.1" initState).1 = .ok none :=
  ⟨rfl, rfl, rfl, rfl⟩

/-- C3 counterexample: a 400 response whose body does not parse as JSON
makes the transport raise the JSON decoding error, not an OperationFailed
with an empty error list: exc.response.json() in OperationFailed.__init__
raises before the typed error is built. -/
theorem C3_counterexample :
    (IDRAC.request env400bad "POST" (.str "/redfish/v1/x") (some []) initState).1
      = .error .jsonDecodeError
    ∧ (IDRAC.request env400bad "POST" (.str "/redfish/v1/x") (some []) initState).1
      ≠ .error (.operationFailed []) := by
  refine ⟨rfl, ?_⟩
  rw [show (IDRAC.request env400bad "POST" (.str "/redfish/v1/x") (some [])
    initState).1 = .error .jsonDecodeError from rfl]
  simp

theorem extInfoPairs_map (pairs : List (JValue × JValue)) :
    extInfoPairs (pairs.map (fun p => .obj [("MessageId", p.1), ("Message", p.2)]))
      = .ok pairs := by
  induction pairs with
  | nil => rfl
  | cons p rest ih =>
    simp only [List.map_cons]
    unfold extInfoPairs
    rw [show pyGetItem (.obj [("MessageId", p.1), ("Message", p.2)]) "MessageId"
      = .ok p.1 from rfl]
    rw [show pyGetItem (.obj [("MessageId", p.1), ("Message", p.2)]) "Message"
      = .ok p.2 from rfl]
    rw [ih]

theorem opFailed_vendor (pairs : List (JValue × JValue)) :
    operationFailedErrors (.json (vendorBody pairs)) = .ok pairs := by
  unfold operationFailedErrors vendorBody
  dsimp only
  rw [show pyContainsVal (.obj [("error", .obj [("@Message.ExtendedInfo",
      .arr (pairs.map (fun p => .obj [("MessageId", p.1), ("Message", p.2)])))])])
    (.str "error") = .ok true from rfl]
  dsimp only
  rw [show pyGetItem (.obj [("error", .obj [("@Message.ExtendedInfo",
      .arr (pairs.map (fun p => .obj [("MessageId", p.1), ("Message", p.2)])))])])
    "error" = .ok (.obj [("@Message.ExtendedInfo",
      .arr (pairs.map (fun p => .obj [("MessageId", p.1), ("Message", p.2)])))])
    from rfl]
  dsimp only
  rw [show dictGet (.obj [("@Message.ExtendedInfo",
      .arr (pairs.map (fun p => .obj [("MessageId", p.1), ("Message", p.2)])))])
    "@Message.ExtendedInfo" (.arr [])
    = .ok (.arr (pairs.map (fun p => .obj [("MessageId", p.1), ("Message", p.2)])))
    from rfl]
  dsimp only
  exact extInfoPairs_map pairs

/-- C3 amended: on a non-2xx response the transport raises OperationFailed
whose error list is exactly the vendor (MessageId, Message) pairs in server
order; an absent body gives an empty error list; a present but unparsable
body raises the JSON decoding error instead of OperationFailed. -/
theorem C3_amended_operation_failed (env : Env) (m u : String)
    (p : Option (List (String × JValue))) (s : SessState) (resp : Response)
    (pairs : List (JValue × JValue))
    (hu : strContainsSub "://" u = false)
    (hresp : env.respond s.reqCount m u = resp)
    (hstatus : 400 ≤ resp.status) :
    (resp.body = .json (vendorBody pairs) →
      IDRAC.request env m (.str u) p s
        = (.error (.operationFailed pairs),
           { s with reqCount := s.reqCount + 1, trace := s.trace ++ [⟨m, u, p⟩] }))
    ∧ (resp.body = .empty →
      IDRAC.request env m (.str u) p s
        = (.error (.operationFailed []),
           { s with reqCount := s.reqCount + 1, trace := s.trace ++ [⟨m, u, p⟩] }))
    ∧ (resp.body = .invalidJson →
      IDRAC.request env m (.str u) p s
        = (.error .jsonDecodeError,
           { s with reqCount := s.reqCount + 1, trace := s.trace ++ [⟨m, u, p⟩] })) := by
  refine ⟨?_, ?_, ?_⟩ <;> intro hb <;>
    unfold IDRAC.request <;>
    rw [show pyContainsVal (.str u) (.str "://")
      = .ok (strContainsSub "://" u) from rfl, hu] <;>
    dsimp only <;>
    rw [hresp, if_pos hstatus, hb]
  · rw [opFailed_vendor]
  · rfl
  · rfl

/-- C3 witness: the two-entry vendor scenario: an HTTP 400 action response
carrying two vendor messages raises OperationFailed listing exactly those
two pairs in order. -/
theorem C3_witness :
    IDRAC.request envVendor "POST" (.str "/redfish/v1/act") (some []) initState
      = (.error (.operationFailed vendorPairs),
         { initState with reqCount := 1,
                          trace := [⟨"POST", "/redfish/v1/act", some []⟩] }) := by
  have h := (C3_amended_operation_failed envVendor "POST" "/redfish/v1/act"
    (some []) initState (envVendor.respond 0 "POST" "/redfish/v1/act")
    vendorPairs (by decide) rfl (by decide)).1 rfl
  exact h

/-- C6 counterexample: with timeout 1 (poll interval 5) and a system that
never matches, the power wait makes two poll requests, not one, before
raising TimeoutError: the deadline check after the first poll sees zero
elapsed time. -/
theorem C6_counterexample :
    (IDRAC.wait_for_power_state envAlwaysOn "Off" (some 1) 5 initState).1
      = .error .timeoutError
    ∧ (IDRAC.wait_for_power_state envAlwaysOn "Off" (some 1) 5 initState).2.reqCount
      = 2
    ∧ (2 : Nat) ≠ 1 :=
  ⟨rfl, rfl, by decide⟩

/-- C6 amended: a poll that matches on the first attempt returns at once,
with one fetch, no sleep and no timeout check, for both waiting loops and
any timeout; a never-matching poll with timeout 1 fails with TimeoutError
after the second poll attempt (one sleep of 5), because the deadline check
follows each poll. -/
theorem C6_amended_polling :
    (∀ env fields want pv tmo fuel s,
      env.respond s.reqCount "GET" RESOURCES.system = okJsonResponse (.obj fields) →
      lookupField fields "PowerState" = some pv →
      pyEq (.str want) pv = true → fuel ≠ 0 →
      IDRAC.wait_for_power_state env want tmo fuel s =
        (.ok (), { s with reqCount := s.reqCount + 1,
                          trace := s.trace ++ [⟨"GET", RESOURCES.system, none⟩],
                          cache := setField s.cache RESOURCES.system (located fields) }))
    ∧ (∀ env jid jfields msg want tmo fuel s,
      strContainsSub "://" (resolve_job_path jid) = false →
      env.respond s.reqCount "GET" (resolve_job_path jid)
        = okJsonResponse (.obj jfields) →
      lookupField jfields "Message" = some (.str msg) →
      classify_message msg = want → fuel ≠ 0 →
      IDRAC.wait_for_job_state env jid want tmo fuel s =
        (.ok (), { s with reqCount := s.reqCount + 1,
                          trace := s.trace ++ [⟨"GET", resolve_job_path jid, none⟩],
                          cache := setField s.cache (resolve_job_path jid)
                            (located jfields) }))
    ∧ (∀ env fields want pv fuel s,
      (∀ n, env.respond n "GET" RESOURCES.system = okJsonResponse (.obj fields)) →
      lookupField fields "PowerState" = some pv →
      pyEq (.str want) pv = false → 2 ≤ fuel →
      IDRAC.wait_for_power_state env want (some 1) fuel s =
        (.error .timeoutError,
         { s with reqCount := s.reqCount + 2,
                  trace := s.trace
                    ++ List.replicate 2 ⟨"GET", RESOURCES.system, none⟩,
                  clock := s.clock + 5,
                  cache := setField s.cache RESOURCES.system (located fields) }))
    ∧ (∀ env jid jfields msg want fuel s,
      strContainsSub "://" (resolve_job_path jid) = false →
      (∀ n, env.respond n "GET" (resolve_job_path jid)
        = okJsonResponse (.obj jfields)) →
      lookupField jfields "Message" = some (.str msg) →
      classify_message msg ≠ want → 2 ≤ fuel →
      IDRAC.wait_for_job_state env jid want (some 1) fuel s =
        (.error .timeoutError,
         { s with reqCount := s.reqCount + 2,
                  trace := s.trace
                    ++ List.replicate 2 ⟨"GET", resolve_job_path jid, none⟩,
                  clock := s.clock + 5,
                  cache := setField s.cache (resolve_job_path jid)
                    (located jfields) })) := by
  refine ⟨?_, ?_, ?_, ?_⟩
  · intro env fields want pv tmo fuel s hresp hps heq hfuel
    exact wfps_first_match env fields want pv tmo fuel s hresp hps heq hfuel
  · intro env jid jfields msg want tmo fuel s hjid hresp hmsg heq hfuel
    exact wfjs_first_match env jid jfields msg want tmo fuel s hjid hresp hmsg heq hfuel
  · intro env fields want pv fuel s hresp hps hne hfuel
    exact wfps_const_timeout env fields want pv 1 s.clock hresp hps hne (by decide)
      fuel 0 s (by omega) (by omega) (by omega)
  · intro env jid jfields msg want fuel s hjid hresp hmsg hne hfuel
    exact wfjs_const_timeout env jid jfields msg want 1 s.clock hjid hresp hmsg hne
      (by decide) fuel 0 s (by omega) (by omega) (by omega)

/-- C6 witness: against the always-On system, a wait for On returns after
one poll with the clock untouched, and a wait for Off with timeout 1 fails
with TimeoutError after two polls and one sleep. -/
theorem C6_witness :
    IDRAC.wait_for_power_state envAlwaysOn "On" (some 7) 3 initState
      = (.ok (),
         { initState with
             reqCount := 1,
             trace := [⟨"GET", RESOURCES.system, none⟩],
             cache := setField [] RESOURCES.system (located sysOnFields) })
    ∧ IDRAC.wait_for_power_state envAlwaysOn "Off" (some 1) 2 initState
      = (.error .timeoutError,
         { initState with
             reqCount := 2,
             trace := List.replicate 2 ⟨"GET", RESOURCES.system, none⟩,
             clock := 5,
             cache := setField [] RESOURCES.system (located sysOnFields) }) := by
  constructor
  · exact C6_amended_polling.1 envAlwaysOn sysOnFields "On" (.str "On") (some 7) 3
      initState rfl rfl (by decide) (by decide)
  · exact C6_amended_polling.2.2.1 envAlwaysOn sysOnFields "Off" (.str "On") 2
      initState (fun _ => rfl) rfl (by decide) (by decide)
